import Mathlib

/-
Verification of the alerting/polling core of the watchtower dashboard
(src/backend/python/dashboard.py), as a shallow embedding in Lean.

Modelling conventions:
- JSON numbers are rationals; the JSON values that can occur as threshold
  dict entries are embedded as `JVal` (number, string, boolean, null).
- Python dicts are embedded as association lists in insertion order
  (Python dicts preserve insertion order; keys are unique in any dict
  produced by JSON parsing or literal construction, which the theorems
  track via `Nodup` hypotheses where it matters).
- A fetched per-host metrics payload is `Snapshot`; a metrics dict whose
  values parsed as numbers but which may be missing expected keys models
  the payloads on which evaluation raises `KeyError`.
- Exceptions are an explicit error channel: `Except (List Alert) _` for
  the evaluation loop, where the error value carries the contents of the
  mutable `active_alerts` list at the moment the exception escapes
  (the loop mutates the shared list in place, so an exception leaves the
  partially rebuilt list behind).
- Reads of the shared `ALERT_THRESHOLDS` dict are made explicit: the
  evaluator takes a function `readTh : Nat -> ThDict` giving the version
  of the dict observed by its n-th read, so that an update running
  concurrently with a cycle is expressible.  The single-version evaluator
  `evalSnapshot` is the constant-function special case.
- `datetime.now().isoformat()` is abstracted as the evaluation instant
  `now : String` supplied to the cycle.
-/

set_option autoImplicit false

namespace Watchtower

/-- Embedding of the JSON values that can appear in the threshold dict. -/
inductive JVal where
  | num : ℚ → JVal
  | str : String → JVal
  | bool : Bool → JVal
  | null : JVal
deriving DecidableEq, Repr

/-- The ALERT_THRESHOLDS dict: metric kind to JSON value, insertion order. -/
abbrev ThDict := List (String × JVal)

/-- One host's parsed metrics dict: field name to number. -/
abbrev Metrics := List (String × ℚ)

/-- A parsed /latest body: hostname to metrics dict, in dict order. -/
abbrev Snapshot := List (String × Metrics)

/-- Python dict indexing d[k]: the value at the first (unique) occurrence
of k, or none when indexing would raise KeyError. -/
def lookupKey {α : Type} : List (String × α) → String → Option α
  | [], _ => none
  | (k0, v) :: rest, k => if k0 = k then some v else lookupKey rest k

/-- Python dict assignment d[k] = v on an insertion-ordered association
list: an existing key keeps its position, a new key is appended. -/
def setKey {α : Type} : List (String × α) → String → α → List (String × α)
  | [], k, v => [(k, v)]
  | (k0, v0) :: rest, k, v =>
    if k0 = k then (k0, v) :: rest else (k0, v0) :: setKey rest k v

/-- Python dict.update(patch): fold setKey over the patch in its order. -/
def dictUpdate (base patch : ThDict) : ThDict :=
  patch.foldl (fun d kv => setKey d kv.1 kv.2) base

/-- The initial ALERT_THRESHOLDS dict of dashboard.py. -/
def ALERT_THRESHOLDS : ThDict :=
  [("cpu", JVal.num 80), ("memory", JVal.num 85), ("disk", JVal.num 90)]

/-- One alert dict as appended by check_alerts: hostname, type, value,
threshold (the JSON value re-read from ALERT_THRESHOLDS), timestamp. -/
structure Alert where
  hostname : String
  type : String
  value : ℚ
  threshold : JVal
  timestamp : String
deriving DecidableEq, Repr

/-- Python comparison v > t of a float with a JSON value: defined for
numbers, raises TypeError (none) otherwise. -/
def pyGt (v : ℚ) : JVal → Option Bool
  | JVal.num t => some (decide (t < v))
  | _ => none

/-- One if metrics[field] > ALERT_THRESHOLDS[kind]: append(...) check of
check_alerts, for one host.  State is (active_alerts contents, number of
ALERT_THRESHOLDS reads performed so far); the comparison performs one
read and, when the condition holds, building the alert dict performs a
second read of the same key for its threshold field.  The error channel
carries the alert list as it stands when an exception (KeyError on a
missing metrics field or absent threshold key, TypeError on a
non-numeric threshold) escapes. -/
def checkKind (readTh : ℕ → ThDict) (h field kind typ now : String)
    (m : Metrics) (st : List Alert × ℕ) :
    Except (List Alert) (List Alert × ℕ) :=
  match lookupKey m field with
  | none => Except.error st.1
  | some v =>
    match lookupKey (readTh st.2) kind with
    | none => Except.error st.1
    | some t =>
      match pyGt v t with
      | none => Except.error st.1
      | some b =>
        if b then
          match lookupKey (readTh (st.2 + 1)) kind with
          | none => Except.error st.1
          | some t2 => Except.ok (st.1 ++ [⟨h, typ, v, t2, now⟩], st.2 + 2)
        else Except.ok (st.1, st.2 + 1)

/-- The three per-kind checks of check_alerts for one host, in source
order: cpu, then memory, then disk. -/
def checkHost (readTh : ℕ → ThDict) (now h : String) (m : Metrics)
    (st : List Alert × ℕ) : Except (List Alert) (List Alert × ℕ) := do
  let st1 ← checkKind readTh h "cpu_usage" "cpu" "CPU" now m st
  let st2 ← checkKind readTh h "memory_usage" "memory" "Memory" now m st1
  checkKind readTh h "disk_usage" "disk" "Disk" now m st2

/-- The for hostname, metrics in latest_metrics.items() loop of
check_alerts, threading the alert list and the threshold-read counter. -/
def checkSnapshotSeq (readTh : ℕ → ThDict) (now : String) :
    Snapshot → List Alert × ℕ → Except (List Alert) (List Alert × ℕ)
  | [], st => Except.ok st
  | (h, m) :: rest, st => do
    let st1 ← checkHost readTh now h m st
    checkSnapshotSeq readTh now rest st1

/-- Evaluation of a whole fetched snapshot, starting from the cleared
alert list (active_alerts.clear() precedes the loop), with the threshold
dict version observed by each read given by readTh. -/
def evalSnapshotSeq (readTh : ℕ → ThDict) (now : String) (snap : Snapshot) :
    Except (List Alert) (List Alert) :=
  match checkSnapshotSeq readTh now snap ([], 0) with
  | Except.ok st => Except.ok st.1
  | Except.error l => Except.error l

/-- Evaluation when every threshold read observes the same dict version
(no update runs concurrently with the cycle). -/
def evalSnapshot (th : ThDict) : String → Snapshot → Except (List Alert) (List Alert) :=
  evalSnapshotSeq (fun _ => th)

/-- Outcome of the requests.get of one poll cycle: the call raised
(timeout, connection error), or it returned a response with the given
status code whose response.json() either parses (some) or raises (none). -/
inductive FetchOutcome where
  | exn : FetchOutcome
  | resp : ℕ → Option Snapshot → FetchOutcome
deriving DecidableEq

/-- One iteration of the while True loop of check_alerts, outside the
sleep: given the threshold dict, the evaluation instant, the current
contents of active_alerts and the fetch outcome, returns the contents of
active_alerts afterwards and whether an error was caught and printed.
A non-200 status takes the silent fall-through of the if with no else;
response.json() is only called on status 200; any exception inside the
try lands in the except branch, which prints and continues. -/
def check_alerts_cycle (th : ThDict) (now : String) (store : List Alert) :
    FetchOutcome → List Alert × Bool
  | FetchOutcome.exn => (store, true)
  | FetchOutcome.resp status body =>
    if status = 200 then
      match body with
      | none => (store, true)
      | some snap =>
        match evalSnapshot th now snap with
        | Except.ok alerts => (alerts, false)
        | Except.error leftover => (leftover, true)
    else (store, false)

/-- Body of the /api/latest response. -/
inductive LatestBody where
  | data : Snapshot → LatestBody
  | errObj : LatestBody
deriving DecidableEq

/-- The api_latest handler: it performs a fresh requests.get against the
external source on every call; the argument is the outcome of
requests.get(...).json() of that on-demand call (none when either the
request or the JSON parse raised).  On success it returns the parsed body
with status 200; on exception a JSON error object with status 500. -/
def api_latest : Option Snapshot → ℕ × LatestBody
  | some snap => (200, LatestBody.data snap)
  | none => (500, LatestBody.errObj)

/-- A value of the POST /api/alerts/config response object: the status
string or the nested thresholds dict. -/
inductive RVal where
  | str : String → RVal
  | dict : ThDict → RVal
deriving DecidableEq

/-- The POST branch of api_alerts_config: merge the request body into
ALERT_THRESHOLDS with dict.update (no validation of any kind), then
respond with the object holding the status marker and, under the
thresholds key, the full merged dict.  Returns (new dict state, response
body as an association list). -/
def api_alerts_config_post (th body : ThDict) : ThDict × List (String × RVal) :=
  let th2 := dictUpdate th body
  (th2, [("status", RVal.str "ok"), ("thresholds", RVal.dict th2)])

/-- The GET branch of api_alerts_config: jsonify the current dict. -/
def api_alerts_config_get (th : ThDict) : ThDict := th

/-- Well-formed metrics dict: the three fields check_alerts indexes are
present, so evaluation of this host raises no KeyError. -/
def metricsWF (m : Metrics) : Bool :=
  (lookupKey m "cpu_usage").isSome && (lookupKey m "memory_usage").isSome &&
    (lookupKey m "disk_usage").isSome

/-- Well-formed snapshot: every host's metrics dict is well-formed. -/
def snapshotWF (snap : Snapshot) : Bool :=
  snap.all (fun p => metricsWF p.2)

/-- Specification-level description of the alerts one host contributes,
in the fixed kind order cpu, memory, disk, when the three thresholds are
the numbers tc, tm, td. -/
def hostAlerts (tc tm td : ℚ) (now h : String) (m : Metrics) : List Alert :=
  (match lookupKey m "cpu_usage" with
   | some v => if tc < v then [⟨h, "CPU", v, JVal.num tc, now⟩] else []
   | none => []) ++
  (match lookupKey m "memory_usage" with
   | some v => if tm < v then [⟨h, "Memory", v, JVal.num tm, now⟩] else []
   | none => []) ++
  (match lookupKey m "disk_usage" with
   | some v => if td < v then [⟨h, "Disk", v, JVal.num td, now⟩] else []
   | none => [])

/-- An alert with its timestamp field blanked, to compare evaluation
outputs up to the instants at which they ran. -/
def stripTs (a : Alert) : Alert := { a with timestamp := "" }

/-- Blank the timestamps in an intermediate evaluation state. -/
def stripRes : Except (List Alert) (List Alert × ℕ) → Except (List Alert) (List Alert × ℕ)
  | Except.error l => Except.error (l.map stripTs)
  | Except.ok (l, i) => Except.ok (l.map stripTs, i)

/-- Blank the timestamps in a final evaluation result. -/
def stripE : Except (List Alert) (List Alert) → Except (List Alert) (List Alert)
  | Except.error l => Except.error (l.map stripTs)
  | Except.ok l => Except.ok (l.map stripTs)

/-- The rational 92.5, given as 185/2 in lowest terms by its fields so
that concrete evaluations reduce in the kernel. -/
def q925 : ℚ := ⟨185, 2, by norm_num, by norm_num⟩

/-- The concrete scenario of the spec: host1 at cpu 92.5, memory 50,
disk 95. -/
def snap1 : Snapshot :=
  [("host1", [("cpu_usage", q925), ("memory_usage", 50), ("disk_usage", 95)])]

/-- A parsed payload whose metrics dict lacks the memory_usage field, so
evaluation raises KeyError after the cpu check has already fired. -/
def snapBad : Snapshot := [("h1", [("cpu_usage", 95)])]

/-- A pre-cycle alert store contents, published by an earlier cycle. -/
def store0 : List Alert := [⟨"old", "Disk", 99, JVal.num 90, "T0"⟩]

/-- The threshold dict after a concurrent update raising cpu to 90. -/
def thNew : ThDict := dictUpdate ALERT_THRESHOLDS [("cpu", JVal.num 90)]

/-- A read sequence in which the first threshold read observes the old
dict and every later read observes the updated dict: the interleaving of
one update with a cycle in flight. -/
def readTorn : ℕ → ThDict := fun i => if i = 0 then ALERT_THRESHOLDS else thNew

/-- A snapshot whose cpu reading lies between the old (80) and new (90)
cpu thresholds. -/
def snapTorn : Snapshot :=
  [("h1", [("cpu_usage", 85), ("memory_usage", 0), ("disk_usage", 0)])]

/-- A two-host snapshot, hosts deliberately not in sorted order, with
every metric above its threshold. -/
def snapTwo : Snapshot :=
  [("beta", [("cpu_usage", 95), ("memory_usage", 95), ("disk_usage", 95)]),
   ("alpha", [("cpu_usage", 95), ("memory_usage", 95), ("disk_usage", 95)])]

end Watchtower

deriving instance DecidableEq for Except

namespace Watchtower

theorem q925_eq : q925 = 92.5 := by
  have h : q925 = Rat.divInt 185 2 := Rat.mk'_eq_divInt
  rw [h, Rat.divInt_eq_div]
  norm_num

theorem lookupKey_mem {α : Type} {d : List (String × α)} {k : String} {v : α}
    (h : lookupKey d k = some v) : (k, v) ∈ d := by
  induction d with
  | nil => simp [lookupKey] at h
  | cons p rest ih =>
    obtain ⟨k0, v0⟩ := p
    by_cases hk : k0 = k
    · subst hk
      simp [lookupKey] at h
      subst h
      exact List.mem_cons_self _ _
    · simp only [lookupKey, if_neg hk] at h
      exact List.mem_cons_of_mem _ (ih h)

theorem lookupKey_eq_of_mem_nodup {α : Type} {d : List (String × α)}
    (hnd : (d.map Prod.fst).Nodup) {k : String} {v : α} (h : (k, v) ∈ d) :
    lookupKey d k = some v := by
  induction d with
  | nil => simp at h
  | cons p rest ih =>
    obtain ⟨k0, v0⟩ := p
    simp only [List.map_cons, List.nodup_cons] at hnd
    rcases List.mem_cons.mp h with heq | hmem
    · rw [Prod.mk.injEq] at heq
      obtain ⟨rfl, rfl⟩ := heq
      simp [lookupKey]
    · have hk : k0 ≠ k := by
        intro hkk
        subst hkk
        exact hnd.1 (List.mem_map.mpr ⟨(k0, v), hmem, rfl⟩)
      simp only [lookupKey, if_neg hk]
      exact ih hnd.2 hmem

theorem lookupKey_setKey_self {α : Type} (d : List (String × α)) (k : String) (v : α) :
    lookupKey (setKey d k v) k = some v := by
  induction d with
  | nil => simp [setKey, lookupKey]
  | cons p rest ih =>
    obtain ⟨k0, v0⟩ := p
    by_cases hk : k0 = k
    · simp [setKey, hk, lookupKey]
    · simp [setKey, hk, lookupKey, ih]

theorem lookupKey_setKey_ne {α : Type} (d : List (String × α)) (k k' : String) (v : α)
    (h : k' ≠ k) : lookupKey (setKey d k v) k' = lookupKey d k' := by
  induction d with
  | nil => simp [setKey, lookupKey, Ne.symm h]
  | cons p rest ih =>
    obtain ⟨k0, v0⟩ := p
    by_cases hk : k0 = k
    · subst hk
      have : k0 ≠ k' := fun hh => h hh.symm
      simp [setKey, lookupKey, this]
    · by_cases hk' : k0 = k'
      · subst hk'
        simp [setKey, hk, lookupKey]
      · simp [setKey, hk, lookupKey, hk', ih]

theorem lookupKey_dictUpdate_not_mem {base patch : ThDict} {k : String}
    (h : k ∉ patch.map Prod.fst) : lookupKey (dictUpdate base patch) k = lookupKey base k := by
  induction patch generalizing base with
  | nil => rfl
  | cons p rest ih =>
    simp only [List.map_cons, List.mem_cons, not_or] at h
    have hstep : dictUpdate base (p :: rest) = dictUpdate (setKey base p.1 p.2) rest := rfl
    rw [hstep, ih h.2, lookupKey_setKey_ne _ _ _ _ h.1]

theorem lookupKey_dictUpdate_mem {base patch : ThDict}
    (hnd : (patch.map Prod.fst).Nodup) {k : String} {v : JVal} (h : (k, v) ∈ patch) :
    lookupKey (dictUpdate base patch) k = some v := by
  induction patch generalizing base with
  | nil => simp at h
  | cons p rest ih =>
    simp only [List.map_cons, List.nodup_cons] at hnd
    have hstep : dictUpdate base (p :: rest) = dictUpdate (setKey base p.1 p.2) rest := rfl
    rcases List.mem_cons.mp h with heq | hmem
    · subst heq
      rw [hstep, lookupKey_dictUpdate_not_mem hnd.1, lookupKey_setKey_self]
    · rw [hstep]
      exact ih hnd.2 hmem

theorem checkKind_const (th : ThDict) (h field kind typ now : String) (m : Metrics)
    (acc : List Alert) (i : ℕ) (v t : ℚ)
    (hv : lookupKey m field = some v) (ht : lookupKey th kind = some (JVal.num t)) :
    checkKind (fun _ => th) h field kind typ now m (acc, i) =
      Except.ok (acc ++ (if t < v then [⟨h, typ, v, JVal.num t, now⟩] else []),
        i + (if t < v then 2 else 1)) := by
  unfold checkKind pyGt
  by_cases hlt : t < v <;> simp [hv, ht, hlt]

theorem checkHost_const (th : ThDict) (tc tm td : ℚ)
    (hc : lookupKey th "cpu" = some (JVal.num tc))
    (hm : lookupKey th "memory" = some (JVal.num tm))
    (hd : lookupKey th "disk" = some (JVal.num td))
    (now h : String) (m : Metrics) (hwf : metricsWF m = true)
    (acc : List Alert) (i : ℕ) :
    ∃ j, checkHost (fun _ => th) now h m (acc, i) =
      Except.ok (acc ++ hostAlerts tc tm td now h m, j) := by
  unfold metricsWF at hwf
  simp only [Bool.and_eq_true, Option.isSome_iff_exists] at hwf
  obtain ⟨⟨⟨vc, hvc⟩, vm, hvm⟩, vd, hvd⟩ := hwf
  refine ⟨i + (if tc < vc then 2 else 1) + (if tm < vm then 2 else 1) +
    (if td < vd then 2 else 1), ?_⟩
  unfold checkHost
  rw [checkKind_const th h "cpu_usage" "cpu" "CPU" now m acc i vc tc hvc hc]
  simp only [bind, Except.bind]
  rw [checkKind_const th h "memory_usage" "memory" "Memory" now m _ _ vm tm hvm hm]
  simp only [bind, Except.bind]
  rw [checkKind_const th h "disk_usage" "disk" "Disk" now m _ _ vd td hvd hd]
  simp [hostAlerts, hvc, hvm, hvd, List.append_assoc]

theorem checkSnapshotSeq_const (th : ThDict) (tc tm td : ℚ)
    (hc : lookupKey th "cpu" = some (JVal.num tc))
    (hm : lookupKey th "memory" = some (JVal.num tm))
    (hd : lookupKey th "disk" = some (JVal.num td))
    (now : String) (snap : Snapshot) (hwf : snapshotWF snap = true) :
    ∀ (acc : List Alert) (i : ℕ),
      ∃ j, checkSnapshotSeq (fun _ => th) now snap (acc, i) =
        Except.ok (acc ++ snap.flatMap (fun p => hostAlerts tc tm td now p.1 p.2), j) := by
  induction snap with
  | nil => intro acc i; exact ⟨i, by simp [checkSnapshotSeq]⟩
  | cons p rest ih =>
    intro acc i
    obtain ⟨hh, mm⟩ := p
    simp only [snapshotWF, List.all_cons, Bool.and_eq_true] at hwf
    obtain ⟨j1, h1⟩ := checkHost_const th tc tm td hc hm hd now hh mm hwf.1 acc i
    obtain ⟨j2, h2⟩ := ih (by simp [snapshotWF, hwf.2]) (acc ++ hostAlerts tc tm td now hh mm) j1
    refine ⟨j2, ?_⟩
    unfold checkSnapshotSeq
    rw [h1]
    simp only [bind, Except.bind]
    rw [h2]
    simp [List.append_assoc]

theorem evalSnapshot_flatMap (th : ThDict) (tc tm td : ℚ)
    (hc : lookupKey th "cpu" = some (JVal.num tc))
    (hm : lookupKey th "memory" = some (JVal.num tm))
    (hd : lookupKey th "disk" = some (JVal.num td))
    (now : String) (snap : Snapshot) (hwf : snapshotWF snap = true) :
    evalSnapshot th now snap =
      Except.ok (snap.flatMap (fun p => hostAlerts tc tm td now p.1 p.2)) := by
  obtain ⟨j, hj⟩ := checkSnapshotSeq_const th tc tm td hc hm hd now snap hwf [] 0
  simp [evalSnapshot, evalSnapshotSeq, hj]

theorem mem_hostAlerts_cpu (tc tm td v : ℚ) (now h h' : String) (m : Metrics) :
    (⟨h', "CPU", v, JVal.num tc, now⟩ : Alert) ∈ hostAlerts tc tm td now h m ↔
      h' = h ∧ lookupKey m "cpu_usage" = some v ∧ tc < v := by
  unfold hostAlerts
  cases hcv : lookupKey m "cpu_usage" <;>
    cases hmv : lookupKey m "memory_usage" <;>
    cases hdv : lookupKey m "disk_usage" <;>
    simp [Alert.mk.injEq] <;>
    aesop

theorem mem_hostAlerts_memory (tc tm td v : ℚ) (now h h' : String) (m : Metrics) :
    (⟨h', "Memory", v, JVal.num tm, now⟩ : Alert) ∈ hostAlerts tc tm td now h m ↔
      h' = h ∧ lookupKey m "memory_usage" = some v ∧ tm < v := by
  unfold hostAlerts
  cases hcv : lookupKey m "cpu_usage" <;>
    cases hmv : lookupKey m "memory_usage" <;>
    cases hdv : lookupKey m "disk_usage" <;>
    simp [Alert.mk.injEq] <;>
    aesop

theorem mem_hostAlerts_disk (tc tm td v : ℚ) (now h h' : String) (m : Metrics) :
    (⟨h', "Disk", v, JVal.num td, now⟩ : Alert) ∈ hostAlerts tc tm td now h m ↔
      h' = h ∧ lookupKey m "disk_usage" = some v ∧ td < v := by
  unfold hostAlerts
  cases hcv : lookupKey m "cpu_usage" <;>
    cases hmv : lookupKey m "memory_usage" <;>
    cases hdv : lookupKey m "disk_usage" <;>
    simp [Alert.mk.injEq] <;>
    aesop

theorem checkKind_strip (readTh : ℕ → ThDict) (h field kind typ now1 now2 : String)
    (m : Metrics) (acc1 acc2 : List Alert) (i : ℕ)
    (hacc : acc1.map stripTs = acc2.map stripTs) :
    stripRes (checkKind readTh h field kind typ now1 m (acc1, i)) =
      stripRes (checkKind readTh h field kind typ now2 m (acc2, i)) := by
  unfold checkKind
  cases hv : lookupKey m field with
  | none => simpa [stripRes] using hacc
  | some v =>
    cases ht : lookupKey (readTh i) kind with
    | none => simpa [stripRes] using hacc
    | some t =>
      cases t with
      | str s => simpa [pyGt, stripRes] using hacc
      | bool b => simpa [pyGt, stripRes] using hacc
      | null => simpa [pyGt, stripRes] using hacc
      | num q =>
        by_cases hlt : q < v
        · cases ht2 : lookupKey (readTh (i + 1)) kind with
          | none => simpa [pyGt, hlt, stripRes] using hacc
          | some t2 => simp [pyGt, hlt, stripRes, stripTs, List.map_append, hacc]
        · simpa [pyGt, hlt, stripRes] using hacc

theorem strip_bind (r1 r2 : Except (List Alert) (List Alert × ℕ))
    (f1 f2 : List Alert × ℕ → Except (List Alert) (List Alert × ℕ))
    (hr : stripRes r1 = stripRes r2)
    (hf : ∀ a1 a2 i, a1.map stripTs = a2.map stripTs →
      stripRes (f1 (a1, i)) = stripRes (f2 (a2, i))) :
    stripRes (r1 >>= f1) = stripRes (r2 >>= f2) := by
  cases r1 with
  | error l1 =>
    cases r2 with
    | error l2 => simpa [stripRes, bind, Except.bind] using hr
    | ok p2 => obtain ⟨a2, i2⟩ := p2; simp [stripRes] at hr
  | ok p1 =>
    obtain ⟨a1, i1⟩ := p1
    cases r2 with
    | error l2 => simp [stripRes] at hr
    | ok p2 =>
      obtain ⟨a2, i2⟩ := p2
      simp only [stripRes, Except.ok.injEq, Prod.mk.injEq] at hr
      obtain ⟨hmap, hi⟩ := hr
      subst hi
      simpa [bind, Except.bind] using hf a1 a2 i1 hmap

theorem checkHost_strip (readTh : ℕ → ThDict) (now1 now2 h : String) (m : Metrics)
    (acc1 acc2 : List Alert) (i : ℕ)
    (hacc : acc1.map stripTs = acc2.map stripTs) :
    stripRes (checkHost readTh now1 h m (acc1, i)) =
      stripRes (checkHost readTh now2 h m (acc2, i)) := by
  unfold checkHost
  refine strip_bind _ _ _ _
    (checkKind_strip readTh h "cpu_usage" "cpu" "CPU" now1 now2 m acc1 acc2 i hacc) ?_
  intro a1 a2 j hm1
  refine strip_bind _ _ _ _
    (checkKind_strip readTh h "memory_usage" "memory" "Memory" now1 now2 m a1 a2 j hm1) ?_
  intro b1 b2 j2 hm2
  exact checkKind_strip readTh h "disk_usage" "disk" "Disk" now1 now2 m b1 b2 j2 hm2

theorem checkSnapshotSeq_strip (readTh : ℕ → ThDict) (now1 now2 : String) (snap : Snapshot) :
    ∀ (acc1 acc2 : List Alert) (i : ℕ), acc1.map stripTs = acc2.map stripTs →
      stripRes (checkSnapshotSeq readTh now1 snap (acc1, i)) =
        stripRes (checkSnapshotSeq readTh now2 snap (acc2, i)) := by
  induction snap with
  | nil => intro a1 a2 i hacc; simpa [checkSnapshotSeq, stripRes] using hacc
  | cons p rest ih =>
    intro a1 a2 i hacc
    obtain ⟨hh, mm⟩ := p
    unfold checkSnapshotSeq
    exact strip_bind _ _ _ _ (checkHost_strip readTh now1 now2 hh mm a1 a2 i hacc)
      (fun b1 b2 j hb => ih b1 b2 j hb)

theorem evalSnapshotSeq_strip (readTh : ℕ → ThDict) (now1 now2 : String) (snap : Snapshot) :
    stripE (evalSnapshotSeq readTh now1 snap) = stripE (evalSnapshotSeq readTh now2 snap) := by
  have hmain := checkSnapshotSeq_strip readTh now1 now2 snap [] [] 0 rfl
  unfold evalSnapshotSeq
  cases h1 : checkSnapshotSeq readTh now1 snap ([], 0) with
  | error l1 =>
    cases h2 : checkSnapshotSeq readTh now2 snap ([], 0) with
    | error l2 => rw [h1, h2] at hmain; simpa [stripRes, stripE] using hmain
    | ok p2 => obtain ⟨a2, i2⟩ := p2; rw [h1, h2] at hmain; simp [stripRes] at hmain
  | ok p1 =>
    obtain ⟨a1, i1⟩ := p1
    cases h2 : checkSnapshotSeq readTh now2 snap ([], 0) with
    | error l2 => rw [h1, h2] at hmain; simp [stripRes] at hmain
    | ok p2 =>
      obtain ⟨a2, i2⟩ := p2
      rw [h1, h2] at hmain
      simp only [stripRes, Except.ok.injEq, Prod.mk.injEq] at hmain
      simp [stripE, hmain.1]

end Watchtower

namespace Watchtower

/-- C1 counterexample: a 200 response whose metrics dict for host h1
lacks the memory_usage field makes evaluation raise KeyError after the
cpu check has already appended an alert.  The claim says the store then
still holds its pre-cycle value; in fact active_alerts was cleared and
partially rebuilt, so the store afterwards is the one-element partial
list, not the pre-cycle store0. -/
theorem C1_eval_exception_counterexample :
    (check_alerts_cycle ALERT_THRESHOLDS "T" store0
      (FetchOutcome.resp 200 (some snapBad))).1 ≠ store0 ∧
    (check_alerts_cycle ALERT_THRESHOLDS "T" store0
      (FetchOutcome.resp 200 (some snapBad))).1 =
      [⟨"h1", "CPU", 95, JVal.num 80, "T"⟩] := by
  refine ⟨?_, ?_⟩ <;> decide

/-- C1 (amended): the loop never crashes, and for every cycle whose
fetch fails (requests.get raised, non-200 status, or malformed body) the
alert store is left exactly at its pre-cycle value; but when evaluation
raises mid-cycle the store is left holding the alerts accumulated before
the exception (the pre-cycle value having been cleared), not its
pre-cycle value. -/
theorem C1_failure_containment :
    (∀ th now store, (check_alerts_cycle th now store FetchOutcome.exn).1 = store) ∧
    (∀ th now store status body, status ≠ 200 →
      (check_alerts_cycle th now store (FetchOutcome.resp status body)).1 = store) ∧
    (∀ th now store, (check_alerts_cycle th now store (FetchOutcome.resp 200 none)).1 = store) ∧
    (∀ th now store snap leftover, evalSnapshot th now snap = Except.error leftover →
      (check_alerts_cycle th now store (FetchOutcome.resp 200 (some snap))).1 = leftover) := by
  refine ⟨fun th now store => rfl, fun th now store status body hs => ?_,
    fun th now store => ?_, fun th now store snap leftover he => ?_⟩
  · simp [check_alerts_cycle, hs]
  · simp [check_alerts_cycle]
  · simp [check_alerts_cycle, he]

/-- C1 witness: a concrete non-200 cycle leaves the store unchanged, and
the concrete evaluation-exception cycle leaves the partial list. -/
theorem C1_failure_containment_witness :
    (check_alerts_cycle ALERT_THRESHOLDS "T" store0
      (FetchOutcome.resp 500 (some snapBad))).1 = store0 ∧
    (check_alerts_cycle ALERT_THRESHOLDS "T" store0
      (FetchOutcome.resp 200 (some snapBad))).1 =
      [⟨"h1", "CPU", 95, JVal.num 80, "T"⟩] :=
  ⟨C1_failure_containment.2.1 ALERT_THRESHOLDS "T" store0 500 (some snapBad) (by decide),
   C1_failure_containment.2.2.2 ALERT_THRESHOLDS "T" store0 snapBad
     [⟨"h1", "CPU", 95, JVal.num 80, "T"⟩] (by decide)⟩

/-- C2: for every threshold dict whose three kinds hold the numbers tc,
tm, td, and every well-formed snapshot with distinct hostnames,
evaluation succeeds and emits the alert for host h and a metric kind
exactly when the observed value of that kind strictly exceeds the
threshold; equality never emits. -/
theorem C2_strict_threshold (th : ThDict) (tc tm td : ℚ)
    (hc : lookupKey th "cpu" = some (JVal.num tc))
    (hm : lookupKey th "memory" = some (JVal.num tm))
    (hd : lookupKey th "disk" = some (JVal.num td))
    (now : String) (snap : Snapshot)
    (hwf : snapshotWF snap = true)
    (hnd : (snap.map Prod.fst).Nodup) :
    ∃ alerts, evalSnapshot th now snap = Except.ok alerts ∧
      ∀ h v,
        ((⟨h, "CPU", v, JVal.num tc, now⟩ : Alert) ∈ alerts ↔
          ∃ m, lookupKey snap h = some m ∧ lookupKey m "cpu_usage" = some v ∧ tc < v) ∧
        ((⟨h, "Memory", v, JVal.num tm, now⟩ : Alert) ∈ alerts ↔
          ∃ m, lookupKey snap h = some m ∧ lookupKey m "memory_usage" = some v ∧ tm < v) ∧
        ((⟨h, "Disk", v, JVal.num td, now⟩ : Alert) ∈ alerts ↔
          ∃ m, lookupKey snap h = some m ∧ lookupKey m "disk_usage" = some v ∧ td < v) := by
  refine ⟨_, evalSnapshot_flatMap th tc tm td hc hm hd now snap hwf, ?_⟩
  intro h v
  refine ⟨?_, ?_, ?_⟩
  · rw [List.mem_flatMap]
    constructor
    · rintro ⟨p, hp, hmem⟩
      rw [mem_hostAlerts_cpu] at hmem
      obtain ⟨rfl, hv, hlt⟩ := hmem
      refine ⟨p.2, lookupKey_eq_of_mem_nodup hnd ?_, hv, hlt⟩
      simpa using hp
    · rintro ⟨m, hlook, hv, hlt⟩
      exact ⟨(h, m), lookupKey_mem hlook, by rw [mem_hostAlerts_cpu]; exact ⟨rfl, hv, hlt⟩⟩
  · rw [List.mem_flatMap]
    constructor
    · rintro ⟨p, hp, hmem⟩
      rw [mem_hostAlerts_memory] at hmem
      obtain ⟨rfl, hv, hlt⟩ := hmem
      refine ⟨p.2, lookupKey_eq_of_mem_nodup hnd ?_, hv, hlt⟩
      simpa using hp
    · rintro ⟨m, hlook, hv, hlt⟩
      exact ⟨(h, m), lookupKey_mem hlook, by rw [mem_hostAlerts_memory]; exact ⟨rfl, hv, hlt⟩⟩
  · rw [List.mem_flatMap]
    constructor
    · rintro ⟨p, hp, hmem⟩
      rw [mem_hostAlerts_disk] at hmem
      obtain ⟨rfl, hv, hlt⟩ := hmem
      refine ⟨p.2, lookupKey_eq_of_mem_nodup hnd ?_, hv, hlt⟩
      simpa using hp
    · rintro ⟨m, hlook, hv, hlt⟩
      exact ⟨(h, m), lookupKey_mem hlook, by rw [mem_hostAlerts_disk]; exact ⟨rfl, hv, hlt⟩⟩

/-- C2 witness: the spec's concrete scenario.  With the default
thresholds and host1 at cpu 92.5, memory 50, disk 95, evaluation yields
exactly the CPU alert (92.5 over 80) and the Disk alert (95 over 90) in
that order, and no Memory alert. -/
theorem C2_strict_threshold_witness :
    (∃ alerts, evalSnapshot ALERT_THRESHOLDS "T" snap1 = Except.ok alerts ∧
      ∀ h v,
        ((⟨h, "CPU", v, JVal.num 80, "T"⟩ : Alert) ∈ alerts ↔
          ∃ m, lookupKey snap1 h = some m ∧ lookupKey m "cpu_usage" = some v ∧ 80 < v) ∧
        ((⟨h, "Memory", v, JVal.num 85, "T"⟩ : Alert) ∈ alerts ↔
          ∃ m, lookupKey snap1 h = some m ∧ lookupKey m "memory_usage" = some v ∧ 85 < v) ∧
        ((⟨h, "Disk", v, JVal.num 90, "T"⟩ : Alert) ∈ alerts ↔
          ∃ m, lookupKey snap1 h = some m ∧ lookupKey m "disk_usage" = some v ∧ 90 < v)) ∧
    evalSnapshot ALERT_THRESHOLDS "T" snap1 =
      Except.ok [⟨"host1", "CPU", q925, JVal.num 80, "T"⟩,
        ⟨"host1", "Disk", 95, JVal.num 90, "T"⟩] ∧
    q925 = 92.5 :=
  ⟨C2_strict_threshold ALERT_THRESHOLDS 80 85 90 (by decide) (by decide) (by decide)
    "T" snap1 (by decide) (by decide), by decide, q925_eq⟩

/-- C3 counterexample: two calls to the /api/latest handler made while
the poller's state is the same (the poller keeps no raw-fetch cache at
all) return different bodies whenever the on-demand upstream responses
differ, so the handler cannot be returning a cached copy of the most
recent poller fetch. -/
theorem C3_counterexample :
    api_latest (some snap1) ≠ api_latest (some []) ∧
    api_latest none ≠ api_latest (some snap1) := by
  refine ⟨?_, ?_⟩ <;> decide

/-- C3 (amended): the handler performs a fresh fetch of the external
source on every call and its response is exactly determined by that
fetch's outcome: the parsed body with status 200 on success, a JSON
error object with status 500 when the request or parse raises.  The
response is an injective function of the on-demand fetch outcome, so it
depends on that fetch, not on any cached poller state. -/
theorem C3_fresh_fetch :
    (∀ snap, api_latest (some snap) = (200, LatestBody.data snap)) ∧
    api_latest none = (500, LatestBody.errObj) ∧
    Function.Injective api_latest := by
  refine ⟨fun snap => rfl, rfl, ?_⟩
  intro a b hab
  cases a <;> cases b <;> simp [api_latest] at hab ⊢
  exact hab

/-- C4 counterexample: two runs of evaluation on the same snapshot and
the same thresholds, performed at different instants, produce alert
collections differing in the timestamp field, so the outputs are not
identical in every field of every alert. -/
theorem C4_timestamp_counterexample :
    evalSnapshot ALERT_THRESHOLDS "T1" snap1 ≠ evalSnapshot ALERT_THRESHOLDS "T2" snap1 := by
  decide

/-- C4 (amended): evaluation is a pure function of snapshot, thresholds
and the evaluation instant, so two runs on equal inputs at the same
instant are identical; runs at different instants agree on every field
of every alert except the timestamp, on both the success and the
exception channel. -/
theorem C4_deterministic_up_to_timestamp :
    ∀ (th : ThDict) (now1 now2 : String) (snap : Snapshot),
      stripE (evalSnapshot th now1 snap) = stripE (evalSnapshot th now2 snap) :=
  fun th now1 now2 snap => evalSnapshotSeq_strip (fun _ => th) now1 now2 snap

/-- C5 counterexample: a non-2xx upstream response is neither a failure
carried to the caller nor a reported error: the cycle silently falls
through the status test, reporting nothing and leaving the store as it
was, contradicting the claim that a non-2xx status produces a reported
FetchError. -/
theorem C5_non2xx_counterexample :
    (check_alerts_cycle ALERT_THRESHOLDS "T" store0 (FetchOutcome.resp 404 none)).2 = false ∧
    (check_alerts_cycle ALERT_THRESHOLDS "T" store0 (FetchOutcome.resp 404 none)).1 = store0 := by
  refine ⟨?_, ?_⟩ <;> decide

/-- C5 (amended): a raised network error or a malformed 200 payload is
caught and reported by the cycle (and no retry happens within the
cycle); a non-2xx response status, however, is silently skipped with no
error reported and no change to the store. -/
theorem C5_fetch_error_reporting :
    (∀ th now store, (check_alerts_cycle th now store FetchOutcome.exn).2 = true ∧
      (check_alerts_cycle th now store FetchOutcome.exn).1 = store) ∧
    (∀ th now store, (check_alerts_cycle th now store (FetchOutcome.resp 200 none)).2 = true ∧
      (check_alerts_cycle th now store (FetchOutcome.resp 200 none)).1 = store) ∧
    (∀ th now store status body, status ≠ 200 →
      (check_alerts_cycle th now store (FetchOutcome.resp status body)).2 = false ∧
      (check_alerts_cycle th now store (FetchOutcome.resp status body)).1 = store) := by
  refine ⟨fun th now store => ⟨rfl, rfl⟩, fun th now store => ?_,
    fun th now store status body hs => ?_⟩
  · constructor <;> simp [check_alerts_cycle]
  · constructor <;> simp [check_alerts_cycle, hs]

/-- C5 witness: the concrete 404 cycle reports nothing and keeps the
store; the concrete malformed-200 cycle reports an error. -/
theorem C5_fetch_error_reporting_witness :
    ((check_alerts_cycle ALERT_THRESHOLDS "T" store0 (FetchOutcome.resp 404 none)).2 = false ∧
      (check_alerts_cycle ALERT_THRESHOLDS "T" store0 (FetchOutcome.resp 404 none)).1 = store0) ∧
    (check_alerts_cycle ALERT_THRESHOLDS "T" store0 (FetchOutcome.resp 200 none)).2 = true :=
  ⟨C5_fetch_error_reporting.2.2 ALERT_THRESHOLDS "T" store0 404 none (by decide),
   (C5_fetch_error_reporting.2.1 ALERT_THRESHOLDS "T" store0).1⟩

/-- C6: dict.update merge semantics of the configuration update, as read
back by the GET branch: every kind named in the patch takes its new
value, every kind not named keeps exactly its previous value. -/
theorem C6_update_merge (base patch : ThDict) (hnd : (patch.map Prod.fst).Nodup) :
    (∀ k v, (k, v) ∈ patch →
      lookupKey (api_alerts_config_get (dictUpdate base patch)) k = some v) ∧
    (∀ k, k ∉ patch.map Prod.fst →
      lookupKey (api_alerts_config_get (dictUpdate base patch)) k = lookupKey base k) :=
  ⟨fun _ _ hkv => lookupKey_dictUpdate_mem hnd hkv,
   fun _ hk => lookupKey_dictUpdate_not_mem hk⟩

/-- C6 witness: updating only cpu to 90 makes a subsequent get read
cpu as 90 while memory and disk read exactly as before. -/
theorem C6_update_merge_witness :
    lookupKey (api_alerts_config_get (dictUpdate ALERT_THRESHOLDS [("cpu", JVal.num 90)]))
      "cpu" = some (JVal.num 90) ∧
    lookupKey (api_alerts_config_get (dictUpdate ALERT_THRESHOLDS [("cpu", JVal.num 90)]))
      "memory" = lookupKey ALERT_THRESHOLDS "memory" ∧
    lookupKey (api_alerts_config_get (dictUpdate ALERT_THRESHOLDS [("cpu", JVal.num 90)]))
      "disk" = lookupKey ALERT_THRESHOLDS "disk" :=
  ⟨(C6_update_merge ALERT_THRESHOLDS [("cpu", JVal.num 90)] (by decide)).1
      "cpu" (JVal.num 90) (by decide),
   (C6_update_merge ALERT_THRESHOLDS [("cpu", JVal.num 90)] (by decide)).2
      "memory" (by decide),
   (C6_update_merge ALERT_THRESHOLDS [("cpu", JVal.num 90)] (by decide)).2
      "disk" (by decide)⟩

/-- C7 counterexample: the POST response body is not the full threshold
set: its top-level keys are status and thresholds, and looking up a
metric kind such as cpu at the top level of the body fails. -/
theorem C7_counterexample :
    lookupKey (api_alerts_config_post ALERT_THRESHOLDS [("cpu", JVal.num 90)]).2 "cpu" = none ∧
    (api_alerts_config_post ALERT_THRESHOLDS [("cpu", JVal.num 90)]).2.map Prod.fst =
      ["status", "thresholds"] := by
  refine ⟨?_, ?_⟩ <;> decide

/-- C7 (amended): the POST response body is the wrapper object holding
the status marker and, under the thresholds key, the complete merged
threshold set; the new dict state is that same merged set. -/
theorem C7_response_wraps_full_set (th body : ThDict) :
    (api_alerts_config_post th body).1 = dictUpdate th body ∧
    lookupKey (api_alerts_config_post th body).2 "thresholds" =
      some (RVal.dict (dictUpdate th body)) ∧
    lookupKey (api_alerts_config_post th body).2 "status" = some (RVal.str "ok") :=
  ⟨rfl, rfl, rfl⟩

/-- C8 counterexample: posting the non-numeric value "high" for cpu does
not fail: the string is merged into the threshold dict and the handler
answers with the ok status. -/
theorem C8_non_numeric_counterexample :
    (api_alerts_config_post ALERT_THRESHOLDS [("cpu", JVal.str "high")]).1 =
      [("cpu", JVal.str "high"), ("memory", JVal.num 85), ("disk", JVal.num 90)] ∧
    lookupKey (api_alerts_config_post ALERT_THRESHOLDS [("cpu", JVal.str "high")]).2
      "status" = some (RVal.str "ok") := by
  refine ⟨?_, ?_⟩ <;> decide

/-- C8 (amended): the update performs no validation at all: any JSON
value, numeric or not, is merged into the threshold set as-is and the
handler reports success; no ConfigValidationError exists in the code. -/
theorem C8_no_validation (base : ThDict) (k : String) (v : JVal) :
    lookupKey (api_alerts_config_post base [(k, v)]).1 k = some v ∧
    lookupKey (api_alerts_config_post base [(k, v)]).2 "status" = some (RVal.str "ok") := by
  constructor
  · show lookupKey (dictUpdate base [(k, v)]) k = some v
    exact lookupKey_setKey_self base k v
  · rfl

/-- C9 counterexample: with the read sequence in which the comparison
read observes the old dict (cpu 80) and the later threshold-field read
observes the updated dict (cpu 90), a host at cpu 85 yields an alert
carrying value 85 with threshold 90 -- an outcome equal to neither the
all-old nor the all-new single-version evaluation, so the cycle's reads
did not observe one atomic configuration version. -/
theorem C9_torn_read_counterexample :
    evalSnapshotSeq readTorn "T" snapTorn =
      Except.ok [⟨"h1", "CPU", 85, JVal.num 90, "T"⟩] ∧
    ¬ (evalSnapshotSeq readTorn "T" snapTorn = evalSnapshot ALERT_THRESHOLDS "T" snapTorn ∨
       evalSnapshotSeq readTorn "T" snapTorn = evalSnapshot thNew "T" snapTorn) := by
  refine ⟨?_, ?_⟩ <;> decide

/-- C9 (amended): each individual read of the shared threshold dict is
atomic, but the code takes no per-cycle snapshot of the configuration:
there is an interleaving in which every read observes one of the two
versions involved in a concurrent update, yet the cycle's outcome equals
the outcome of neither single version -- distinct reads within one
evaluation observed different versions. -/
theorem C9_reads_not_atomic :
    ∃ (reads : ℕ → ThDict) (thA thB : ThDict) (snap : Snapshot) (now : String),
      (∀ i, reads i = thA ∨ reads i = thB) ∧
      evalSnapshotSeq reads now snap ≠ evalSnapshot thA now snap ∧
      evalSnapshotSeq reads now snap ≠ evalSnapshot thB now snap := by
  refine ⟨readTorn, ALERT_THRESHOLDS, thNew, snapTorn, "T", fun i => ?_, by decide, by decide⟩
  by_cases hi : i = 0
  · simp [readTorn, hi]
  · simp [readTorn, hi]

/-- C10: on a well-formed snapshot with numeric thresholds, the
published alert list is exactly the concatenation, over hosts in the
snapshot's dict iteration order, of each host's alerts in the fixed
kind order CPU, Memory, Disk. -/
theorem C10_alert_order (th : ThDict) (tc tm td : ℚ)
    (hc : lookupKey th "cpu" = some (JVal.num tc))
    (hm : lookupKey th "memory" = some (JVal.num tm))
    (hd : lookupKey th "disk" = some (JVal.num td))
    (now : String) (snap : Snapshot) (hwf : snapshotWF snap = true) :
    evalSnapshot th now snap =
      Except.ok (snap.flatMap (fun p => hostAlerts tc tm td now p.1 p.2)) :=
  evalSnapshot_flatMap th tc tm td hc hm hd now snap hwf

/-- C10 witness: a two-host snapshot listed as beta then alpha with all
six metrics violating produces the six alerts grouped by host in
snapshot order, each host's alerts ordered CPU, Memory, Disk. -/
theorem C10_alert_order_witness :
    evalSnapshot ALERT_THRESHOLDS "T" snapTwo =
      Except.ok (snapTwo.flatMap (fun p => hostAlerts 80 85 90 "T" p.1 p.2)) ∧
    evalSnapshot ALERT_THRESHOLDS "T" snapTwo =
      Except.ok [⟨"beta", "CPU", 95, JVal.num 80, "T"⟩,
        ⟨"beta", "Memory", 95, JVal.num 85, "T"⟩,
        ⟨"beta", "Disk", 95, JVal.num 90, "T"⟩,
        ⟨"alpha", "CPU", 95, JVal.num 80, "T"⟩,
        ⟨"alpha", "Memory", 95, JVal.num 85, "T"⟩,
        ⟨"alpha", "Disk", 95, JVal.num 90, "T"⟩] :=
  ⟨C10_alert_order ALERT_THRESHOLDS 80 85 90 (by decide) (by decide) (by decide)
    "T" snapTwo (by decide), by decide⟩

end Watchtower
